import Mathlib

/-!
Shallow embedding of `protonvpn_gui/main.py` (class `ProtonVPNGUI`, a GTK
application front-end for ProtonVPN).

Modelling conventions:
* Each handler method is translated to a pure Lean function producing the list
  of observable events (`Ev`) it performs, in source order, together with the
  uncaught exception it lets escape, if any (`Option Exc`).
* Outcomes of calls into the external `protonvpn_nm_lib` library (active
  connection query, disconnect, session check, logout, bug-report calls) are
  inputs of the functions: `Bool` for queries, `Option Exc` for calls that may
  raise (`none` = the call returns normally, `some e` = it raises `e`).
* Mutable instance state (`self.indicator`, `self.is_logging_out`) is an
  explicit `AppState` threaded through the handlers that touch it.
* `GLib.idle_add(f, args...)` is recorded as an `Ev.idleAdd` event carrying the
  scheduled call and its positional arguments; running the scheduled callback
  is modelled separately (see `__dialog_updater`).
-/

/-- Exceptions that can cross the Python call boundaries modelled here. -/
inductive Exc where
  | connectionNotFound
  | typeError (msg : String)
  | other (msg : String)
deriving DecidableEq

/-- The string rendering of an exception, as used by `"...{}".format(e)`. -/
def excMsg : Exc → String
  | Exc.connectionNotFound => "connection not found"
  | Exc.typeError m => m
  | Exc.other m => m

/-- Callbacks handed to dialogs and background tasks, identified by name. -/
inductive Cb where
  | quitSeq
  | displayLogin
  | taskStartCb
deriving DecidableEq

/-- The two background-process variants produced by `BackgroundProcess.factory`. -/
inductive TaskKind where
  | gtask
  | generic
deriving DecidableEq

/-- Background-task target functions, identified by name. -/
inductive Target where
  | logoutTarget
  | getLogsTarget
deriving DecidableEq

/-- The two windows the application can build and present. -/
inductive WindowKind where
  | login
  | dashboard
deriving DecidableEq

/-- A positional argument of a scheduled idle call. -/
inductive PyArg where
  | dialogRef
  | str (s : String)
deriving DecidableEq

/-- Calls scheduled on the GLib main loop via `GLib.idle_add`. -/
inductive IdleCall where
  | dialogUpdaterCall (args : List PyArg)
  | closeDialogCall
  | prepare (id : Nat)
  | onCloseWin (id : Nat)
  | destroyWin (id : Nat)
deriving DecidableEq

/-- Observable events performed by the handlers, in source order. -/
inductive Ev where
  | logInfo (msg : String)
  | logException (e : Exc)
  | printMsg (msg : String)
  | promptInput (msg : String)
  | gtkDoStartup
  | setupActionsEv
  | quitCalled
  | disconnectAttempt
  | logoutAttempt
  | showQuitDialog (confirm : Cb)
  | showMessageDialog (title desc : String)
  | closeDialogNow
  | showLogoutDialog (confirm : Cb)
  | showAboutDialog
  | taskCreated (k : TaskKind)
  | taskSetup (t : Target) (cb : Option Cb)
  | taskStarted (t : Target)
  | idleAdd (c : IdleCall)
  | presentWindow (w : WindowKind)
  | updateDialogContent (title desc : String)
  | indicatorCreated
deriving DecidableEq

/-- An open application window, described by the two optional capabilities
`_logout` probes for (`prepare_for_app_shutdown` and `on_close_window`);
`destroy` always exists on a GTK window. -/
structure Window where
  id : Nat
  hasPrepare : Bool
  hasOnClose : Bool
deriving DecidableEq

/-- The mutable instance state of `ProtonVPNGUI`. -/
structure AppState where
  indicator : Option Nat
  isLoggingOut : Bool
deriving DecidableEq

/-- State established by `ProtonVPNGUI.__init__`. -/
def initState : AppState := { indicator := none, isLoggingOut := false }

/-- Version constants imported from external modules in the source
(`APP_VERSION`, `lib_version`, `proton_version`); their concrete values are
irrelevant to every claim, so symbolic placeholders stand in for them. -/
def APP_VERSION : String := "APP_VERSION"

/-- Placeholder for `protonvpn_nm_lib.constants.APP_VERSION`. -/
def lib_version : String := "LIB_VERSION"

/-- Placeholder for `proton.constants.VERSION`. -/
def proton_version : String := "PROTON_VERSION"

/-- The decorated banner logged at the top of `do_startup`. -/
def startBanner : String :=
  "\n" ++ "---------------------" ++ "----------------" ++ "------------\n\n"
    ++ "-----------\t" ++ "Initialized protonvpn" ++ "\t-----------\n\n"
    ++ "---------------------" ++ "----------------" ++ "------------"

/-- The version line logged by `do_startup`. -/
def versionLine : String :=
  "ProtonVPN v" ++ APP_VERSION ++ " (protonvpn-nm-lib v" ++ lib_version
    ++ "; proton-client v" ++ proton_version ++ ")"

/-- The warning printed when the app is launched with `SUDO_UID` set. -/
def sudoWarning : String :=
  "\nRunning ProtonVPN as root is not supported and "
    ++ "is highly discouraged, as it might introduce "
    ++ "undesirable side-effects."

/-- The interactive confirmation prompt shown on elevated-privilege launch. -/
def sudoPrompt : String := "Are you sure that you want to proceed (y/N): "

/-- Truth value of the source test `user_input.lower() == "y"`: the only
strings whose Python `lower()` equals `"y"` are `"y"` and `"Y"` themselves. -/
def lowerIsY (s : String) : Bool := s = "y" || s = "Y"

/-- Description of the dialog shown when a logout is already in flight. -/
def pleaseWaitDesc : String :=
  "You\x27re currently being logged out, please wait..."

/-- Model of `ProtonVPNGUI.quit_`: best-effort disconnect, absorbing
`exceptions.ConnectionNotFound`, then `self.quit()`. Any other exception from
`protonvpn.disconnect()` is not caught and escapes before `quit` runs. -/
def quit_ (disconnectRaises : Option Exc) : List Ev × Option Exc :=
  match disconnectRaises with
  | none => ([Ev.disconnectAttempt, Ev.quitCalled], none)
  | some Exc.connectionNotFound => ([Ev.disconnectAttempt, Ev.quitCalled], none)
  | some e => ([Ev.disconnectAttempt], some e)

/-- Model of `ProtonVPNGUI.on_quit`: if `protonvpn.get_active_protonvpn_connection()`
is truthy, show `QuitDialog(self, self.quit_)` and return; otherwise run
`self.quit_()` immediately. -/
def on_quit (activeConnection : Bool) (disconnectRaises : Option Exc) :
    List Ev × Option Exc :=
  if activeConnection then
    ([Ev.logInfo "Quit app", Ev.showQuitDialog Cb.quitSeq], none)
  else
    let r := quit_ disconnectRaises
    (Ev.logInfo "Quit app" :: r.1, r.2)

/-- Model of `ProtonVPNGUI.do_startup`: banner and version logging; when `SUDO_UID` is
in the environment, a printed warning and an interactive prompt, and on any
lowered answer other than `"y"` a log line and a call to `self.on_quit()`
(with no `return` after it); then `Gtk.Application.do_startup(self)`,
`self.setup_actions()` and the success log line. -/
def do_startup (sudoUid : Bool) (userInput : String)
    (activeConnection : Bool) (disconnectRaises : Option Exc) :
    List Ev × Option Exc :=
  let pre := [Ev.logInfo startBanner, Ev.logInfo versionLine]
  if sudoUid then
    let pre2 := pre ++ [Ev.logInfo "Initialized app with sudo",
      Ev.printMsg sudoWarning, Ev.promptInput sudoPrompt]
    if lowerIsY userInput then
      (pre2 ++ [Ev.gtkDoStartup, Ev.setupActionsEv,
        Ev.logInfo "Startup successful"], none)
    else
      let r := on_quit activeConnection disconnectRaises
      match r.2 with
      | some e => (pre2 ++ [Ev.logInfo "Quit app as sudo"] ++ r.1, some e)
      | none =>
          (pre2 ++ [Ev.logInfo "Quit app as sudo"] ++ r.1
            ++ [Ev.gtkDoStartup, Ev.setupActionsEv,
              Ev.logInfo "Startup successful"], none)
  else
    (pre ++ [Ev.gtkDoStartup, Ev.setupActionsEv,
      Ev.logInfo "Startup successful"], none)

/-- Model of `ProtonVPNGUI.display_login_window`: reset `is_logging_out` and present a
freshly built login window. -/
def display_login_window (s : AppState) : AppState × List Ev :=
  ({ s with isLoggingOut := false }, [Ev.presentWindow WindowKind.login])

/-- Model of `ProtonVPNGUI.on_logout`: when `is_logging_out` is set, show the
please-wait message dialog and return; otherwise set the flag, show the
progress dialog, build and set up the `"gtask"` background process with target
`self._logout` and callback `self.display_login_window`, then either defer its
start to the affirmative path of `LogoutDialog` (active connection) or start it
immediately. -/
def on_logout (s : AppState) (activeConnection : Bool) : AppState × List Ev :=
  if s.isLoggingOut then
    (s, [Ev.showMessageDialog "Logout" pleaseWaitDesc])
  else
    let s1 := { s with isLoggingOut := true }
    let evs := [Ev.showMessageDialog "Logout" "Logging out...",
      Ev.taskCreated TaskKind.gtask,
      Ev.taskSetup Target.logoutTarget (some Cb.displayLogin)]
    if activeConnection then
      (s1, evs ++ [Ev.closeDialogNow, Ev.showLogoutDialog Cb.taskStartCb])
    else
      (s1, evs ++ [Ev.taskStarted Target.logoutTarget])

/-- The first loop of `_logout`: `GLib.idle_add(win.prepare_for_app_shutdown)`
for each window, with the `AttributeError` of a missing attribute caught and
ignored. -/
def prepareLoop : List Window → List Ev
  | [] => []
  | w :: ws =>
      (if w.hasPrepare then [Ev.idleAdd (IdleCall.prepare w.id)] else [])
        ++ prepareLoop ws

/-- The last loop of `_logout`: schedule `win.on_close_window` when the window
has it, falling back to `win.destroy` on `AttributeError`. -/
def closeLoop : List Window → List Ev
  | [] => []
  | w :: ws =>
      (if w.hasOnClose then [Ev.idleAdd (IdleCall.onCloseWin w.id)]
        else [Ev.idleAdd (IdleCall.destroyWin w.id)])
        ++ closeLoop ws

/-- Model of `ProtonVPNGUI._logout` (background-task target): snapshot the open
windows, schedule shutdown preparation for the capable ones, call
`protonvpn.logout()` with every exception caught and logged, then schedule
closing (graceful when supported, destroy otherwise). The window-list
formatting argument of the closing log line is elided. -/
def _logout (wins : List Window) (logoutRaises : Option Exc) :
    List Ev × Option Exc :=
  (Ev.logInfo "Stopping background process" :: prepareLoop wins
    ++ Ev.logInfo "Logging out" :: Ev.logoutAttempt ::
      (match logoutRaises with
        | none => []
        | some e => [Ev.logException e])
    ++ Ev.logInfo "Closing all windows" :: closeLoop wins, none)

/-- Events of `ProtonVPNGUI.on_click_get_logs`: progress dialog, generic
background process, `setup(self._async_get_logs, dialog)` (the dialog is the
second positional argument), start. -/
def on_click_get_logs : List Ev :=
  [Ev.showMessageDialog "Generating logs" "Generating logs, please wait...",
    Ev.taskCreated TaskKind.generic,
    Ev.taskSetup Target.getLogsTarget none,
    Ev.taskStarted Target.getLogsTarget]

/-- Description passed to the dialog updater when `generate_logs` fails. -/
def genFailDesc (e : Exc) : String := "\nUnable to generate logs: " ++ excMsg e

/-- The single string produced in the `open_folder_with_logs` failure branch:
the three adjacent string literals of the source concatenate into one
positional argument. -/
def folderFailMerged : String :=
  "Unable to generate logs"
    ++ "\nUnable to open file explorer with logs. "
    ++ "You can find the logs at ~/.cache/protonvpn/logs"

/-- Model of `ProtonVPNGUI._async_get_logs` (background-task target):
`protonvpn.get_bug_report()` outside any try block, then `generate_logs` and
`open_folder_with_logs` each in their own try/except that logs the exception
and schedules a `__dialog_updater` call; on full success the dialog close is
scheduled. -/
def _async_get_logs (getBugReportRaises generateLogsRaises openFolderRaises :
    Option Exc) : List Ev × Option Exc :=
  match getBugReportRaises with
  | some e => ([], some e)
  | none =>
      match generateLogsRaises with
      | some e =>
          ([Ev.logException e,
            Ev.idleAdd (IdleCall.dialogUpdaterCall
              [PyArg.dialogRef, PyArg.str "Unable to generate logs",
                PyArg.str (genFailDesc e)])], none)
      | none =>
          match openFolderRaises with
          | some e =>
              ([Ev.logException e,
                Ev.idleAdd (IdleCall.dialogUpdaterCall
                  [PyArg.dialogRef, PyArg.str folderFailMerged])], none)
          | none => ([Ev.idleAdd IdleCall.closeDialogCall], none)

/-- String rendering of an idle-call argument. -/
def argStr : PyArg → String
  | PyArg.dialogRef => "<dialog>"
  | PyArg.str s => s

/-- Model of `ProtonVPNGUI.__dialog_updater(self, dialog, title, description)` as run
by the main loop on the given positional arguments: with exactly three it
updates the dialog content; any other arity is a Python `TypeError`. -/
def __dialog_updater (args : List PyArg) : List Ev × Option Exc :=
  match args with
  | [_, t, d] => ([Ev.updateDialogContent (argStr t) (argStr d)], none)
  | _ => ([], some (Exc.typeError
      "__dialog_updater() missing 1 required positional argument: description"))

/-- Name of a window for the `do_activate` log line. -/
def windowName : WindowKind → String
  | WindowKind.login => "LoginView"
  | WindowKind.dashboard => "DashboardView"

/-- Model of `ProtonVPNGUI.do_activate`: read `self.props.active_window`; create the
tray indicator when `self.indicator` is falsy (`freshInd` stands for the
object `generate_protonvpn_indicator` returns); when no active window exists,
build the login window if `protonvpn.check_session_exists()` is false and the
dashboard window otherwise; present the chosen window. -/
def do_activate (s : AppState) (activeWindow : Option WindowKind)
    (sessionExists : Bool) (freshInd : Nat) : AppState × List Ev :=
  let p :=
    if s.indicator.isNone then
      ({ s with indicator := some freshInd }, [Ev.indicatorCreated])
    else (s, ([] : List Ev))
  let win :=
    match activeWindow with
    | some w => w
    | none => if !sessionExists then WindowKind.login else WindowKind.dashboard
  (p.1, p.2 ++ [Ev.logInfo ("Window to display " ++ windowName win),
    Ev.presentWindow win])

/-- The handler entry points of `ProtonVPNGUI`, as dispatched by GTK actions
and lifecycle callbacks. -/
inductive Handler where
  | hDoStartup
  | hOnQuit
  | hOnLogout
  | hDisplayLogin
  | hOnClickAbout
  | hOnClickGetLogs
  | hOnDisplayPreferences
  | hDoActivate
deriving DecidableEq

/-- The external inputs a single handler invocation can read. -/
structure StepInput where
  sudoUid : Bool
  userInput : String
  activeConnection : Bool
  disconnectRaises : Option Exc
  sessionExists : Bool
  activeWindow : Option WindowKind
  freshInd : Nat
deriving DecidableEq

/-- One handler invocation on the instance state: the next state and the
events the handler performs. -/
def step (h : Handler) (s : AppState) (inp : StepInput) : AppState × List Ev :=
  match h with
  | Handler.hDoStartup =>
      (s, (do_startup inp.sudoUid inp.userInput inp.activeConnection
        inp.disconnectRaises).1)
  | Handler.hOnQuit =>
      (s, (on_quit inp.activeConnection inp.disconnectRaises).1)
  | Handler.hOnLogout => on_logout s inp.activeConnection
  | Handler.hDisplayLogin => display_login_window s
  | Handler.hOnClickAbout => (s, [Ev.showAboutDialog])
  | Handler.hOnClickGetLogs => (s, on_click_get_logs)
  | Handler.hOnDisplayPreferences =>
      (s, [Ev.logInfo "Display preferences", Ev.printMsg "To-do"])
  | Handler.hDoActivate =>
      do_activate s inp.activeWindow inp.sessionExists inp.freshInd

/-! ## Helper lemmas -/

/-- A sample external-input record used by concrete witnesses. -/
def inp0 : StepInput :=
  { sudoUid := false, userInput := "", activeConnection := false,
    disconnectRaises := none, sessionExists := false, activeWindow := none,
    freshInd := 0 }

/-- The quit sequence never starts a background task. -/
theorem quit_no_task_start (r : Option Exc) (t : Target) :
    Ev.taskStarted t ∉ (quit_ r).1 := by
  cases r with
  | none => simp [quit_]
  | some e => cases e <;> simp [quit_]

/-- Handler `on_quit` never starts a background task. -/
theorem on_quit_no_task_start (ac : Bool) (r : Option Exc) (t : Target) :
    Ev.taskStarted t ∉ (on_quit ac r).1 := by
  cases ac with
  | true => simp [on_quit]
  | false =>
      intro hmem
      simp [on_quit] at hmem
      exact quit_no_task_start r t hmem

/-- Handler `do_startup` never starts a background task. -/
theorem do_startup_no_task_start (su : Bool) (inp : String) (ac : Bool)
    (r : Option Exc) (t : Target) :
    Ev.taskStarted t ∉ (do_startup su inp ac r).1 := by
  cases su with
  | false => simp [do_startup]
  | true =>
      by_cases hy : lowerIsY inp = true
      · simp [do_startup, hy]
      · intro hmem
        have hy' : lowerIsY inp = false := by
          cases h : lowerIsY inp
          · rfl
          · exact absurd h hy
        rcases h2 : (on_quit ac r).2 with _ | e <;>
          simp [do_startup, hy', h2] at hmem <;>
          exact on_quit_no_task_start ac r t hmem

/-! ## Claim C1 -/

/-- C1 counterexample: the application is started with `SUDO_UID` present, the
operator answers `"n"`, no VPN connection is active and the disconnect
succeeds; `do_startup` logs the refusal and requests quit, yet the toolkit
startup continuation (`Gtk.Application.do_startup`) and the action
registration (`setup_actions`) both still run after the refusal — the events
after the prompt are, in order: the refusal log, the quit-handler events, the
toolkit startup, the action registration and the success log. This
contradicts the claim that neither runs after the refusal. -/
theorem startup_refusal_counterexample :
    (do_startup true "n" false none).1.drop 5 =
      [Ev.logInfo "Quit app as sudo", Ev.logInfo "Quit app",
        Ev.disconnectAttempt, Ev.quitCalled, Ev.gtkDoStartup,
        Ev.setupActionsEv, Ev.logInfo "Startup successful"] ∧
    Ev.gtkDoStartup ∈ (do_startup true "n" false none).1 ∧
    Ev.setupActionsEv ∈ (do_startup true "n" false none).1 := by
  exact ⟨by decide, by decide, by decide⟩

/-- C1 (amended): with `SUDO_UID` present and an answer whose lowering is not
`"y"`, `do_startup` calls `on_quit`, which (here: no active connection, and a
disconnect that succeeds or raises `ConnectionNotFound`) requests application
quit; but execution then continues, so the toolkit startup continuation and
the action registration still run after the refusal, and `do_startup` returns
normally. -/
theorem startup_refusal_quits_but_continues (input : String) (r : Option Exc)
    (hin : lowerIsY input = false)
    (hr : r = none ∨ r = some Exc.connectionNotFound) :
    Ev.quitCalled ∈ (do_startup true input false r).1 ∧
    Ev.gtkDoStartup ∈ (do_startup true input false r).1 ∧
    Ev.setupActionsEv ∈ (do_startup true input false r).1 ∧
    (do_startup true input false r).2 = none := by
  rcases hr with h | h <;> subst h <;>
    simp [do_startup, on_quit, quit_, hin]

/-- C1 witness: the amended statement instantiated at answer `"n"` with a
successful disconnect. -/
theorem startup_refusal_quits_but_continues_witness :
    Ev.quitCalled ∈ (do_startup true "n" false none).1 ∧
    Ev.gtkDoStartup ∈ (do_startup true "n" false none).1 ∧
    Ev.setupActionsEv ∈ (do_startup true "n" false none).1 ∧
    (do_startup true "n" false none).2 = none :=
  startup_refusal_quits_but_continues "n" none (by decide) (Or.inl rfl)

/-! ## Claim C6 -/

/-- C6: the internal quit sequence `quit_` attempts a disconnect; whether the
disconnect returns normally or raises `ConnectionNotFound`, the exception is
silently absorbed, the trace is exactly the disconnect attempt followed by the
toolkit `quit` call — so no dialog of any kind is surfaced — and no exception
escapes. -/
theorem quit_absorbs_connection_not_found (r : Option Exc)
    (hr : r = none ∨ r = some Exc.connectionNotFound) :
    quit_ r = ([Ev.disconnectAttempt, Ev.quitCalled], none) ∧
    Ev.quitCalled ∈ (quit_ r).1 := by
  rcases hr with h | h <;> subst h <;> exact ⟨rfl, by decide⟩

/-- C6 witness: the theorem at a disconnect raising `ConnectionNotFound`. -/
theorem quit_absorbs_connection_not_found_witness :
    quit_ (some Exc.connectionNotFound) =
      ([Ev.disconnectAttempt, Ev.quitCalled], none) ∧
    Ev.quitCalled ∈ (quit_ (some Exc.connectionNotFound)).1 :=
  quit_absorbs_connection_not_found (some Exc.connectionNotFound) (Or.inr rfl)

/-! ## Claim C7 -/

/-- C7: `on_quit` with an active VPN connection shows the quit-confirmation
dialog whose affirmative callback is the internal quit sequence (`Cb.quitSeq`
names `self.quit_`) and performs no `quit` itself; with no active connection
it runs the internal quit sequence immediately (its events are exactly the
log line followed by the events of `quit_`, with the disconnect attempted). -/
theorem on_quit_behavior (ac : Bool) (r : Option Exc) :
    (ac = true →
      on_quit ac r =
        ([Ev.logInfo "Quit app", Ev.showQuitDialog Cb.quitSeq], none) ∧
      Ev.quitCalled ∉ (on_quit ac r).1) ∧
    (ac = false →
      on_quit ac r = (Ev.logInfo "Quit app" :: (quit_ r).1, (quit_ r).2) ∧
      Ev.disconnectAttempt ∈ (on_quit ac r).1) := by
  constructor
  · intro h; subst h; exact ⟨rfl, by simp [on_quit]⟩
  · intro h; subst h
    refine ⟨rfl, ?_⟩
    cases r with
    | none => decide
    | some e => cases e <;> simp [on_quit, quit_]

/-- C7 witness: both branches instantiated at concrete inputs. -/
theorem on_quit_behavior_witness :
    on_quit true none =
      ([Ev.logInfo "Quit app", Ev.showQuitDialog Cb.quitSeq], none) ∧
    Ev.disconnectAttempt ∈ (on_quit false none).1 :=
  ⟨((on_quit_behavior true none).1 rfl).1, ((on_quit_behavior false none).2 rfl).2⟩

/-! ## Claim C3 -/

/-- C3: `do_activate` with no active window presents the dashboard when the
library reports an existing session and the login window when it does not;
with an active window that window is presented and the result does not depend
on the session check at all. -/
theorem do_activate_presents (s : AppState) (aw : Option WindowKind)
    (sess : Bool) (f : Nat) :
    (aw = none → sess = true →
      Ev.presentWindow WindowKind.dashboard ∈ (do_activate s aw sess f).2) ∧
    (aw = none → sess = false →
      Ev.presentWindow WindowKind.login ∈ (do_activate s aw sess f).2) ∧
    (∀ w, aw = some w →
      Ev.presentWindow w ∈ (do_activate s aw sess f).2 ∧
      ∀ sess2, do_activate s aw sess2 f = do_activate s aw sess f) := by
  refine ⟨?_, ?_, ?_⟩
  · intro h1 h2; subst h1; subst h2
    cases hs : s.indicator <;> simp [do_activate, hs]
  · intro h1 h2; subst h1; subst h2
    cases hs : s.indicator <;> simp [do_activate, hs]
  · intro w hw; subst hw
    constructor
    · cases hs : s.indicator <;> simp [do_activate, hs]
    · intro sess2; rfl

/-- C3 witness: all three branches at concrete inputs. -/
theorem do_activate_presents_witness :
    Ev.presentWindow WindowKind.dashboard ∈ (do_activate initState none true 1).2 ∧
    Ev.presentWindow WindowKind.login ∈ (do_activate initState none false 1).2 ∧
    Ev.presentWindow WindowKind.login ∈
      (do_activate initState (some WindowKind.login) true 1).2 :=
  ⟨(do_activate_presents initState none true 1).1 rfl rfl,
   (do_activate_presents initState none false 1).2.1 rfl rfl,
   ((do_activate_presents initState (some WindowKind.login) true 1).2.2
      WindowKind.login rfl).1⟩

/-! ## Claim C4 -/

/-- C4 (code bug): in `_async_get_logs`, the `generate_logs` failure branch
schedules `__dialog_updater` with three positional arguments and the dialog
content is replaced (and no close is scheduled, so the dialog stays open), and
full success schedules only the silent close; but in the
`open_folder_with_logs` failure branch the three adjacent string literals of
the source concatenate into a single argument, so the scheduled call carries
only two positional arguments, `__dialog_updater` raises a `TypeError` when
the main loop runs it, and no dialog-content update event is produced — the
dialog content is never replaced on that failure path. -/
theorem get_logs_folder_failure_crash :
    _async_get_logs none none (some (Exc.other "explorer failed")) =
      ([Ev.logException (Exc.other "explorer failed"),
        Ev.idleAdd (IdleCall.dialogUpdaterCall
          [PyArg.dialogRef, PyArg.str folderFailMerged])], none) ∧
    (__dialog_updater [PyArg.dialogRef, PyArg.str folderFailMerged]).2 =
      some (Exc.typeError
        "__dialog_updater() missing 1 required positional argument: description") ∧
    (__dialog_updater [PyArg.dialogRef, PyArg.str folderFailMerged]).1 = [] ∧
    _async_get_logs none (some (Exc.other "gen failed")) none =
      ([Ev.logException (Exc.other "gen failed"),
        Ev.idleAdd (IdleCall.dialogUpdaterCall
          [PyArg.dialogRef, PyArg.str "Unable to generate logs",
            PyArg.str (genFailDesc (Exc.other "gen failed"))])], none) ∧
    (__dialog_updater [PyArg.dialogRef, PyArg.str "Unable to generate logs",
        PyArg.str (genFailDesc (Exc.other "gen failed"))]).1 =
      [Ev.updateDialogContent "Unable to generate logs"
        (genFailDesc (Exc.other "gen failed"))] ∧
    _async_get_logs none none none =
      ([Ev.idleAdd IdleCall.closeDialogCall], none) :=
  ⟨rfl, rfl, rfl, rfl, rfl, rfl⟩

/-! ## Claim C5 -/

/-- C5 counterexample: `protonvpn.get_bug_report()` is called outside any try
block in `_async_get_logs`, so an exception it raises escapes the background
task target uncaught, contradicting the claim that every library call inside
a background task is wrapped. -/
theorem get_bug_report_exception_escapes :
    (_async_get_logs (some (Exc.other "api down")) none none).2 =
      some (Exc.other "api down") ∧
    (_async_get_logs (some (Exc.other "api down")) none none).1 = [] :=
  ⟨rfl, rfl⟩

/-- C5 (amended): the `_logout` task target lets no exception escape for any
window list and any outcome of `protonvpn.logout()`, and `_async_get_logs`
lets no exception escape for any outcome of `generate_logs` and
`open_folder_with_logs` provided the initial `get_bug_report()` call returns
normally; only an exception from `get_bug_report()` escapes. -/
theorem task_exception_containment (wins : List Window)
    (lr gl ofr : Option Exc) :
    (_logout wins lr).2 = none ∧ (_async_get_logs none gl ofr).2 = none := by
  constructor
  · rfl
  · cases gl with
    | some e => rfl
    | none => cases ofr with
      | some e => rfl
      | none => rfl

/-! ## Claim C8 -/

/-- Spec-side description of the preparation pass of `_logout`: exactly the
windows supporting `prepare_for_app_shutdown` are asked to prepare. -/
def prepareSpec (wins : List Window) : List Ev :=
  (wins.filter (fun w => w.hasPrepare)).map
    (fun w => Ev.idleAdd (IdleCall.prepare w.id))

/-- Spec-side description of the closing pass of `_logout`: every window is
closed gracefully when it supports `on_close_window` and destroyed
otherwise. -/
def closeSpec (wins : List Window) : List Ev :=
  wins.map (fun w =>
    if w.hasOnClose then Ev.idleAdd (IdleCall.onCloseWin w.id)
    else Ev.idleAdd (IdleCall.destroyWin w.id))

/-- The preparation loop of `_logout` equals its spec-side description. -/
theorem prepareLoop_eq (wins : List Window) :
    prepareLoop wins = prepareSpec wins := by
  induction wins with
  | nil => rfl
  | cons w ws ih =>
      cases h : w.hasPrepare <;>
        simp [prepareLoop, prepareSpec, List.filter_cons, h] <;>
        simpa [prepareSpec] using ih

/-- The closing loop of `_logout` equals its spec-side description. -/
theorem closeLoop_eq (wins : List Window) :
    closeLoop wins = closeSpec wins := by
  induction wins with
  | nil => rfl
  | cons w ws ih =>
      cases h : w.hasOnClose <;>
        simp [closeLoop, closeSpec, h] <;>
        simpa [closeSpec] using ih

/-- C8: the `_logout` background task first asks exactly the windows that
support shutdown preparation to prepare (the others are skipped and no error
escapes), then performs the library logout call (logging any exception), and
only afterwards closes every window — gracefully via `on_close_window` when
supported, by `destroy` otherwise. -/
theorem logout_window_shutdown (wins : List Window) (r : Option Exc) :
    _logout wins r =
      (Ev.logInfo "Stopping background process" :: prepareSpec wins
        ++ Ev.logInfo "Logging out" :: Ev.logoutAttempt ::
          (match r with
            | none => []
            | some e => [Ev.logException e])
        ++ Ev.logInfo "Closing all windows" :: closeSpec wins, none) := by
  simp [_logout, prepareLoop_eq, closeLoop_eq]

/-! ## Claim C2 -/

/-- C2: a logout request while `is_logging_out` is true shows only the
please-wait message dialog, leaves the state unchanged, and neither creates
nor starts any background task; moreover, across every handler, a logout
background task is only ever started by a step that finds the flag false and
sets it to true — so at most one logout is in flight at any time. -/
theorem logout_guard (s : AppState) (ac : Bool) (h : s.isLoggingOut = true) :
    on_logout s ac = (s, [Ev.showMessageDialog "Logout" pleaseWaitDesc]) ∧
    (∀ k, Ev.taskCreated k ∉ (on_logout s ac).2) ∧
    (∀ t, Ev.taskStarted t ∉ (on_logout s ac).2) ∧
    (∀ (hd : Handler) (s1 : AppState) (inp : StepInput),
      Ev.taskStarted Target.logoutTarget ∈ (step hd s1 inp).2 →
      s1.isLoggingOut = false ∧ (step hd s1 inp).1.isLoggingOut = true) := by
  refine ⟨by simp [on_logout, h], by simp [on_logout, h],
    by simp [on_logout, h], ?_⟩
  intro hd s1 inp hmem
  cases hd with
  | hDoStartup =>
      exact absurd hmem (by
        simpa [step] using do_startup_no_task_start inp.sudoUid inp.userInput
          inp.activeConnection inp.disconnectRaises Target.logoutTarget)
  | hOnQuit =>
      exact absurd hmem (by
        simpa [step] using on_quit_no_task_start inp.activeConnection
          inp.disconnectRaises Target.logoutTarget)
  | hOnLogout =>
      cases hflag : s1.isLoggingOut with
      | true => simp [step, on_logout, hflag] at hmem
      | false =>
          cases hac : inp.activeConnection with
          | true => simp [step, on_logout, hflag, hac] at hmem
          | false =>
              exact ⟨by simp [hflag], by simp [step, on_logout, hflag, hac]⟩

  | hDisplayLogin => simp [step, display_login_window] at hmem
  | hOnClickAbout => simp [step] at hmem
  | hOnClickGetLogs => simp [step, on_click_get_logs] at hmem
  | hOnDisplayPreferences => simp [step] at hmem
  | hDoActivate =>
      cases hs : s1.indicator <;> simp [step, do_activate, hs] at hmem

/-- C2 witness: the guarded branch at a concrete state. -/
theorem logout_guard_witness :
    on_logout { indicator := none, isLoggingOut := true } false =
      ({ indicator := none, isLoggingOut := true },
        [Ev.showMessageDialog "Logout" pleaseWaitDesc]) :=
  (logout_guard { indicator := none, isLoggingOut := true } false rfl).1

/-! ## Claim C9 -/

/-- C9: the tray indicator is `None` at construction; `do_activate` on a
state with no indicator assigns the freshly generated one and emits the
creation event; on a state that already has one it leaves the whole state
unchanged and creates nothing; no handler other than `do_activate` ever
changes the indicator field; and once set, the indicator keeps its value
across every handler. -/
theorem indicator_lazy (s : AppState) (aw : Option WindowKind) (sess : Bool)
    (f k : Nat) (hd : Handler) (s1 : AppState) (inp : StepInput) :
    initState.indicator = none ∧
    (s.indicator = none →
      (do_activate s aw sess f).1.indicator = some f ∧
      Ev.indicatorCreated ∈ (do_activate s aw sess f).2) ∧
    (s.indicator = some k →
      (do_activate s aw sess f).1 = s ∧
      Ev.indicatorCreated ∉ (do_activate s aw sess f).2) ∧
    (hd ≠ Handler.hDoActivate → (step hd s1 inp).1.indicator = s1.indicator) ∧
    (s1.indicator = some k → (step hd s1 inp).1.indicator = some k) := by
  refine ⟨rfl, ?_, ?_, ?_, ?_⟩
  · intro h
    exact ⟨by simp [do_activate, h], by simp [do_activate, h]⟩
  · intro h
    exact ⟨by simp [do_activate, h], by simp [do_activate, h]⟩
  · intro hne
    cases hd with
    | hDoActivate => exact absurd rfl hne
    | hOnLogout =>
        cases hflag : s1.isLoggingOut <;> cases hac : inp.activeConnection <;>
          simp [step, on_logout, hflag, hac]
    | hDisplayLogin => simp [step, display_login_window]
    | hDoStartup => simp [step]
    | hOnQuit => simp [step]
    | hOnClickAbout => simp [step]
    | hOnClickGetLogs => simp [step]
    | hOnDisplayPreferences => simp [step]
  · intro h
    cases hd with
    | hDoActivate => simp [step, do_activate, h]
    | hOnLogout =>
        cases hflag : s1.isLoggingOut <;> cases hac : inp.activeConnection <;>
          simp [step, on_logout, hflag, hac, h]
    | hDisplayLogin => simp [step, display_login_window, h]
    | hDoStartup => simp [step, h]
    | hOnQuit => simp [step, h]
    | hOnClickAbout => simp [step, h]
    | hOnClickGetLogs => simp [step, h]
    | hOnDisplayPreferences => simp [step, h]

/-- C9 witness: first activation assigns the indicator, a second activation
and an unrelated handler leave it unchanged. -/
theorem indicator_lazy_witness :
    (do_activate initState none true 5).1.indicator = some 5 ∧
    (do_activate { indicator := some 5, isLoggingOut := false } none true 9).1 =
      { indicator := some 5, isLoggingOut := false } ∧
    (step Handler.hOnQuit { indicator := some 5, isLoggingOut := false }
      inp0).1.indicator = some 5 ∧
    (step Handler.hOnLogout { indicator := some 5, isLoggingOut := false }
        inp0).1.indicator =
      ({ indicator := some 5, isLoggingOut := false } : AppState).indicator :=
  ⟨((indicator_lazy initState none true 5 5 Handler.hOnQuit initState
      inp0).2.1 rfl).1,
   ((indicator_lazy { indicator := some 5, isLoggingOut := false } none true 9 5
      Handler.hOnQuit initState inp0).2.2.1 rfl).1,
   (indicator_lazy initState none true 5 5 Handler.hOnQuit
      { indicator := some 5, isLoggingOut := false } inp0).2.2.2.2 rfl,
   (indicator_lazy initState none true 5 5 Handler.hOnLogout
      { indicator := some 5, isLoggingOut := false } inp0).2.2.2.1
      (by decide)⟩

/-! ## Claim C10 -/

/-- C10: across every handler step, `is_logging_out` goes from true to false
only in `display_login_window` (the logout completion callback); and when
`on_logout` runs on a state with the flag clear and an active connection, it
sets the flag and defers the task start to the logout-confirmation dialog
(the handler itself emits no logout task start, only the dialog carrying the
start callback), so if that dialog is dismissed without its affirmative path
the flag stays true and any later logout request takes the please-wait
branch. -/
theorem logout_flag_reset (hd : Handler) (s1 : AppState) (inp : StepInput)
    (s : AppState) (ac2 : Bool) (hflag : s.isLoggingOut = false) :
    (s1.isLoggingOut = true → (step hd s1 inp).1.isLoggingOut = false →
      hd = Handler.hDisplayLogin) ∧
    ((on_logout s true).1.isLoggingOut = true ∧
      Ev.taskStarted Target.logoutTarget ∉ (on_logout s true).2 ∧
      Ev.showLogoutDialog Cb.taskStartCb ∈ (on_logout s true).2 ∧
      on_logout (on_logout s true).1 ac2 =
        ((on_logout s true).1,
          [Ev.showMessageDialog "Logout" pleaseWaitDesc])) := by
  constructor
  · intro h1 h2
    cases hd with
    | hDisplayLogin => rfl
    | hDoStartup => simp [step, h1] at h2
    | hOnQuit => simp [step, h1] at h2
    | hOnLogout => simp [step, on_logout, h1] at h2
    | hOnClickAbout => simp [step, h1] at h2
    | hOnClickGetLogs => simp [step, h1] at h2
    | hOnDisplayPreferences => simp [step, h1] at h2
    | hDoActivate =>
        cases hs : s1.indicator <;> simp [step, do_activate, hs, h1] at h2
  · refine ⟨?_, ?_, ?_, ?_⟩ <;> simp [on_logout, hflag]

/-- C10 witness: the flag-reset implication at `display_login_window` on a
logging-out state, and the dismissed-confirmation scenario from the initial
state. -/
theorem logout_flag_reset_witness :
    Handler.hDisplayLogin = Handler.hDisplayLogin ∧
    ((on_logout initState true).1.isLoggingOut = true ∧
      Ev.taskStarted Target.logoutTarget ∉ (on_logout initState true).2 ∧
      Ev.showLogoutDialog Cb.taskStartCb ∈ (on_logout initState true).2 ∧
      on_logout (on_logout initState true).1 false =
        ((on_logout initState true).1,
          [Ev.showMessageDialog "Logout" pleaseWaitDesc])) :=
  ⟨(logout_flag_reset Handler.hDisplayLogin
      { indicator := none, isLoggingOut := true } inp0 initState false rfl).1
      rfl (by decide),
   (logout_flag_reset Handler.hDisplayLogin
      { indicator := none, isLoggingOut := true } inp0 initState false rfl).2⟩
